import Mathlib

/-!
Shallow embedding of the nRF52 fstorage demo application (src/main.c):
the operation dispatcher (flash_write, flash_read, flash_erase), the
completion synchronizer (wait_for_flash_ready), the fstorage event
handler, and the statically configured region descriptor, together with
a backend flash model taken from the design description where the SDK
backend code is not part of the sources.
-/

namespace Fstorage

/-- Success return code (NRF_SUCCESS in the SDK). -/
def NRF_SUCCESS : Nat := 0

/-- Byte-addressed flash contents: the byte stored at each address. -/
def Flash : Type := Nat → Nat

/-- Size of the scratch buffer declared in flash_read
(uint8_t data[256], src/main.c:192). -/
def SCRATCH_SIZE : Nat := 256

/-- sizeof(void*) on the 32-bit target: the length flash_write passes to
nrf_fstorage_write as sizeof(data) (src/main.c:183). -/
def PTR_SIZE : Nat := 4

/-- The n little-endian bytes of a stored machine integer, as they appear
in memory. -/
def leBytes : Nat → Nat → List Nat
  | 0, _ => []
  | n + 1, v => v % 256 :: leBytes n (v / 256)

/-- One lowercase hexadecimal digit character, as printed by printf %x. -/
def hexDigit (n : Nat) : Char :=
  if n < 10 then Char.ofNat (48 + n) else Char.ofNat (87 + n)

/-- printf %x applied to one uint8_t buffer byte (src/main.c:208):
unpadded lowercase hex, one digit below 0x10 and two digits otherwise. -/
def hexByte (b : Nat) : String :=
  if b < 16 then String.mk [hexDigit b]
  else String.mk [hexDigit (b / 16), hexDigit (b % 16)]

/-- printf %x applied to a full machine word (addresses and the pointer
value printed by the dispatcher). -/
def hexNat (n : Nat) : String :=
  String.mk (Nat.toDigits 16 n)

/-- Concatenation of a list of strings, as successive printf calls
accumulate output left to right. -/
def strJoin : List String → String
  | [] => ""
  | s :: rest => s ++ strJoin rest

/-- The printing loop of flash_read (src/main.c:206-209): for
i = len-1 down to 0, print data i with %x.  hexLoop data len is the text
printed for a buffer of len bytes. -/
def hexLoop (data : Nat → Nat) : Nat → String
  | 0 => ""
  | i + 1 => hexByte (data i) ++ hexLoop data i

/-- Length clamping in flash_read (src/main.c:194-197): a requested
length above the scratch size is silently reduced to the scratch size. -/
def flash_read_len (len : Nat) : Nat :=
  if len > SCRATCH_SIZE then SCRATCH_SIZE else len

/-- Modelled from the spec: Backend.read (nrf_fstorage_read, whose body is
not under src/) — a synchronous copy of len bytes of flash starting at
addr. -/
def nrf_fstorage_read (flash : Flash) (addr len : Nat) : List Nat :=
  (List.range len).map fun i => flash (addr + i)

/-- Modelled from the spec: Backend.write — the programming step the
backend performs for a submission accepted by nrf_fstorage_write (not
under src/): it stores the given bytes at consecutive addresses starting
at addr. -/
def flashWriteBytes (flash : Flash) (addr : Nat) (bytes : List Nat) : Flash :=
  fun a =>
    if addr ≤ a ∧ a < addr + bytes.length then bytes.getD (a - addr) 0 else flash a

/-- The scratch buffer of flash_read after the call to nrf_fstorage_read
(src/main.c:192-198): zero-initialized, and on a success code the first
flash_read_len len bytes hold the flash contents. -/
def flash_read_buffer (flash : Flash) (addr len rc : Nat) : Nat → Nat :=
  fun i =>
    if rc = NRF_SUCCESS ∧ i < flash_read_len len then flash (addr + i) else 0

/-- The full hex line printed by flash_read (src/main.c:205-209): the 0x
prefix followed by the buffer bytes from index len-1 down to index 0. -/
def flash_read_display (flash : Flash) (addr len rc : Nat) : String :=
  "0x" ++ hexLoop (flash_read_buffer flash addr len rc) (flash_read_len len)

/-- The primitive actions the dispatcher functions perform, in program
order: console prints, backend submissions, the synchronous backend read,
the completion synchronizer, and the SDK error-check macro reached with a
non-success code. -/
inductive Prim where
  | printf (s : String)
  | fstorageWrite (addr : Nat) (bytes : List Nat)
  | fstorageErase (addr : Nat) (pages : Nat)
  | fstorageRead (addr : Nat) (len : Nat)
  | waitForFlashReady
  | errorCheck (rc : Nat)
deriving DecidableEq

/-- Modelled from the spec: nrf_strerror_get (not under src/) — a
human-readable rendering of an error code. -/
def nrf_strerror_get (rc : Nat) : String :=
  "error code " ++ String.mk (Nat.toDigits 10 rc)

/-- flash_write (src/main.c:177-187) as its trace of primitive actions.
data is the numeric value of the void pointer parameter; pointee is the
memory image of the object the caller passed, which the body never
dereferences because it passes the address of the parameter itself
(and sizeof of the pointer) to nrf_fstorage_write; rc is the code the
backend submission returns.  With a non-success code, APP_ERROR_CHECK
diverts control to the SDK error handler and the function does not
return; with a success code the function blocks in
wait_for_flash_ready. -/
def flash_write_prims (addr data : Nat) (pointee : List Nat) (rc : Nat) : List Prim :=
  [Prim.printf ("Writing to addr: " ++ hexNat addr),
   Prim.printf ("DATA: " ++ hexNat data),
   Prim.printf ("LEN: " ++ String.mk (Nat.toDigits 10 PTR_SIZE)),
   Prim.fstorageWrite addr (leBytes PTR_SIZE data)] ++
  if rc ≠ NRF_SUCCESS then [Prim.errorCheck rc] else [Prim.waitForFlashReady]

/-- flash_read (src/main.c:189-211) as its trace of primitive actions:
it prints the address, clamps the length, calls the synchronous backend
read, prints unsuccessful when the read returns a non-success code, and
always prints the hex dump of the scratch buffer.  rc is the code
returned by nrf_fstorage_read. -/
def flash_read_prims (flash : Flash) (addr len rc : Nat) : List Prim :=
  [Prim.printf ("Reading addr: " ++ hexNat addr),
   Prim.fstorageRead addr (flash_read_len len)] ++
  (if rc ≠ NRF_SUCCESS then [Prim.printf "unsuccessful"] else []) ++
  [Prim.printf ("HEX DATA: " ++ flash_read_display flash addr len rc)]

/-- flash_erase (src/main.c:213-223) as its trace of primitive actions:
it submits the erase and prints the outcome of the submission; it never
invokes the completion synchronizer.  rc is the code returned by
nrf_fstorage_erase. -/
def flash_erase_prims (addr pages rc : Nat) : List Prim :=
  [Prim.fstorageErase addr pages] ++
  if rc ≠ NRF_SUCCESS then
    [Prim.printf ("nrf_fstorage_erase() returned: " ++ nrf_strerror_get rc)]
  else
    [Prim.printf "Flash erased"]

/-- Completion event ids handled in src/main.c:132-147. -/
inductive EvtId where
  | writeResult
  | eraseResult
  | other
deriving DecidableEq

/-- A completion event as seen by the handler (nrf_fstorage_evt_t). -/
structure NrfFstorageEvt where
  result : Nat
  id : EvtId
  len : Nat
  addr : Nat

/-- fstorage_evt_handler (src/main.c:124-149) as its trace of primitive
actions: on a non-success result it logs an error line and returns;
otherwise it logs the completed write or erase; it performs no other
action. -/
def fstorage_evt_handler (evt : NrfFstorageEvt) : List Prim :=
  if evt.result ≠ NRF_SUCCESS then
    [Prim.printf "--> Event received: ERROR while executing an fstorage operation."]
  else
    match evt.id with
    | EvtId.writeResult =>
        [Prim.printf ("--> Event received: wrote " ++ String.mk (Nat.toDigits 10 evt.len)
          ++ " bytes at address " ++ hexNat evt.addr)]
    | EvtId.eraseResult =>
        [Prim.printf ("--> Event received: erased " ++ String.mk (Nat.toDigits 10 evt.len)
          ++ " page from address " ++ hexNat evt.addr)]
    | EvtId.other => []

/-- wait_for_flash_ready (src/main.c:161-168) run against a trace of busy
observations: busy k is the value nrf_fstorage_is_busy returns at the
k-th check.  Fuel bounds the number of loop iterations modelled; the
result is the index of the check at which the loop exits, paired with
the number of power_manage calls the loop made (one per busy check that
observed true, made before re-checking). -/
def wait_for_flash_ready (busy : Nat → Bool) : Nat → Nat → Option (Nat × Nat)
  | 0, _ => none
  | fuel + 1, i =>
    if busy i then
      match wait_for_flash_ready busy fuel (i + 1) with
      | some r => some (r.1, r.2 + 1)
      | none => none
    else
      some (i, 0)

/-- Modelled from the spec: the backend busy state across a primitive
trace.  Submitting a write or erase puts an operation in flight; the
completion synchronizer returns only once the busy state has been
observed false; prints and the synchronous read leave the state
unchanged. -/
def stepBusy (busy : Bool) : Prim → Bool
  | Prim.fstorageWrite _ _ => true
  | Prim.fstorageErase _ _ => true
  | Prim.waitForFlashReady => false
  | _ => busy

/-- The backend busy state after running a primitive trace. -/
def runBusy (prims : List Prim) (busy : Bool) : Bool :=
  prims.foldl stepBusy busy

/-- The write submissions contained in a primitive trace: address and
bytes handed to nrf_fstorage_write. -/
def submittedWrites (prims : List Prim) : List (Nat × List Nat) :=
  prims.filterMap fun p =>
    match p with
    | Prim.fstorageWrite a bs => some (a, bs)
    | _ => none

/-- Whether a trace passes a non-success code to APP_ERROR_CHECK,
diverting control to the SDK error handler instead of returning to the
caller. -/
def divertsToErrorHandler (prims : List Prim) : Bool :=
  prims.any fun p =>
    match p with
    | Prim.errorCheck _ => true
    | _ => false

/-- Whether a primitive is a console print. -/
def Prim.isPrintf : Prim → Bool
  | Prim.printf _ => true
  | _ => false

/-- The flash region configuration fields set in src/main.c:36-47. -/
structure RegionDescriptor where
  start_addr : Nat
  end_addr : Nat

/-- The fstorage instance: the statically configured region boundaries
(src/main.c:45-46), set once in the initializer and never reassigned. -/
def fstorage : RegionDescriptor :=
  { start_addr := 0x3e000, end_addr := 0x410FD }

/-- Modelled from the spec: the erase-unit size reported by the backend
flash info (the flash page size, 4096 bytes on this target). -/
def erase_unit : Nat := 4096

/-- The example payload named by the round-trip property. -/
def exampleBytes : List Nat := [0x4a, 0x08, 0xe0, 0xfe, 0x09, 0x50, 0xa6, 0x64]

/-- A hex byte is one character below 0x10 and two characters otherwise. -/
lemma hexByte_length (b : Nat) : (hexByte b).length = if b < 16 then 1 else 2 := by
  unfold hexByte
  split <;> rfl

/-- Unfolding one iteration of the printing loop: the byte at the top
index is printed first. -/
lemma hexLoop_succ (data : Nat → Nat) (n : Nat) :
    hexLoop data (n + 1) = hexByte (data n) ++ hexLoop data n := rfl

/-- The printed text never exceeds two characters per byte. -/
lemma hexLoop_length_le (data : Nat → Nat) : ∀ len, (hexLoop data len).length ≤ 2 * len := by
  intro len
  induction len with
  | zero => simp [hexLoop]
  | succ n ih =>
    rw [hexLoop_succ, String.length_append, hexByte_length]
    split <;> omega

/-- The printed text has exactly two characters per byte precisely when
every printed byte is at least 0x10. -/
lemma hexLoop_two_mul_iff (data : Nat → Nat) (len : Nat) :
    (hexLoop data len).length = 2 * len ↔ ∀ i, i < len → 16 ≤ data i := by
  induction len with
  | zero => simp [hexLoop]
  | succ n ih =>
    rw [hexLoop_succ, String.length_append, hexByte_length]
    by_cases hd : data n < 16
    · rw [if_pos hd]
      constructor
      · intro h
        exfalso
        have hle := hexLoop_length_le data n
        omega
      · intro h
        exfalso
        have := h n (Nat.lt_succ_self n)
        omega
    · rw [if_neg hd]
      constructor
      · intro h i hi
        rcases Nat.lt_succ_iff_lt_or_eq.mp hi with h1 | h1
        · exact (ih.mp (by omega)) i h1
        · subst h1
          omega
      · intro h
        have h2 : (hexLoop data n).length = 2 * n :=
          ih.mpr fun i hi => h i (Nat.lt_succ_of_lt hi)
        omega

/-- The printing loop equals the concatenation of the byte list in
reversed order, each byte rendered in unpadded hex. -/
lemma hexLoop_eq_join (data : Nat → Nat) (len : Nat) :
    hexLoop data len = strJoin ((((List.range len).map data).reverse).map hexByte) := by
  induction len with
  | zero => rfl
  | succ n ih =>
    rw [hexLoop_succ, ih, List.range_succ]
    simp [strJoin]

/-- A byte written inside the programmed span reads back as the
corresponding payload byte. -/
lemma flashWriteBytes_get (flash : Flash) (addr : Nat) (bytes : List Nat)
    (i : Nat) (hi : i < bytes.length) :
    flashWriteBytes flash addr bytes (addr + i) = bytes.getD i 0 := by
  simp only [flashWriteBytes]
  rw [if_pos ⟨Nat.le_add_right addr i, by omega⟩, Nat.add_sub_cancel_left]

/-- Reading back the programmed span returns exactly the written bytes. -/
lemma read_after_write (flash : Flash) (addr : Nat) (bytes : List Nat) :
    nrf_fstorage_read (flashWriteBytes flash addr bytes) addr bytes.length = bytes := by
  apply List.ext_getElem
  · simp [nrf_fstorage_read]
  · intro i h1 h2
    simp only [nrf_fstorage_read, List.getElem_map, List.getElem_range]
    rw [flashWriteBytes_get flash addr bytes i h2]
    exact List.getD_eq_getElem bytes 0 h2

/-- A request within the scratch bound is not clamped. -/
lemma flash_read_len_of_le {len : Nat} (h : len ≤ SCRATCH_SIZE) :
    flash_read_len len = len := by
  unfold flash_read_len
  rw [if_neg (by omega)]

/-- After programming a payload of at most the scratch size, reading it
back displays the reversed-byte unpadded-hex string of the payload. -/
lemma display_after_write (flash : Flash) (addr : Nat) (bytes : List Nat)
    (h : bytes.length ≤ SCRATCH_SIZE) :
    flash_read_display (flashWriteBytes flash addr bytes) addr bytes.length NRF_SUCCESS =
      "0x" ++ strJoin ((bytes.reverse).map hexByte) := by
  unfold flash_read_display
  rw [flash_read_len_of_le h, hexLoop_eq_join]
  have key : (List.range bytes.length).map
      (flash_read_buffer (flashWriteBytes flash addr bytes) addr bytes.length NRF_SUCCESS) =
      bytes := by
    apply List.ext_getElem
    · simp
    · intro i h1 h2
      simp only [List.getElem_map, List.getElem_range]
      simp only [flash_read_buffer]
      rw [flash_read_len_of_le h, if_pos ⟨by trivial, h2⟩,
        flashWriteBytes_get flash addr bytes i h2]
      exact List.getD_eq_getElem bytes 0 h2
  rw [key]

/-- The exit behavior of the completion synchronizer: whenever the loop
exits at index n having made c power_manage calls starting from index i,
the busy state is false at n, the loop slept once per busy check, and
every check before n observed busy. -/
lemma wait_spec (busy : Nat → Bool) :
    ∀ fuel i n c, wait_for_flash_ready busy fuel i = some (n, c) →
      busy n = false ∧ i + c = n ∧ ∀ k, i ≤ k → k < n → busy k = true := by
  intro fuel
  induction fuel with
  | zero =>
    intro i n c h
    simp [wait_for_flash_ready] at h
  | succ f ih =>
    intro i n c h
    unfold wait_for_flash_ready at h
    by_cases hb : busy i
    · rw [if_pos hb] at h
      cases hrec : wait_for_flash_ready busy f (i + 1) with
      | none =>
        rw [hrec] at h
        simp at h
      | some r =>
        rw [hrec] at h
        simp at h
        obtain ⟨hn, hc⟩ := h
        obtain ⟨hbn, hic, hall⟩ := ih (i + 1) r.1 r.2 hrec
        subst hn
        refine ⟨hbn, by omega, ?_⟩
        intro k hk1 hk2
        rcases Nat.eq_or_lt_of_le hk1 with he | hlt
        · rw [← he]
          exact hb
        · exact hall k hlt hk2
    · rw [if_neg hb] at h
      simp at h
      obtain ⟨hn, hc⟩ := h
      subst hn
      refine ⟨by simpa using hb, by omega, ?_⟩
      intro k hk1 hk2
      exact absurd hk2 (by omega)

/-- C1 (counterexample): with the payload bytes
0x4a 0x08 0xe0 0xfe 0x09 0x50 0xa6 0x64 stored in flash at an aligned
region address, reading 8 bytes back displays 0x64a6509fee084a, because
printf %x pads nothing and 0x09 and 0x08 print as single digits; this
differs from the display string 0x64a65009fee0844a that the claim
predicts. -/
theorem C1_display_string_counterexample :
    flash_read_display (flashWriteBytes (fun _ => 255) 0x3e000 exampleBytes) 0x3e000 8
        NRF_SUCCESS = "0x64a6509fee084a" ∧
    "0x64a6509fee084a" ≠ "0x64a65009fee0844a" := by
  constructor
  · decide
  · decide

/-- C1 (amended): writing a payload of at most the scratch size into
flash and then reading back that many bytes from the same address yields
exactly the written bytes, and the displayed output is the reversed-byte
unpadded-hex string of those bytes (one digit for bytes below 0x10). -/
theorem C1_roundtrip_reversed_hex (flash : Flash) (addr : Nat) (bytes : List Nat)
    (h : bytes.length ≤ SCRATCH_SIZE) :
    nrf_fstorage_read (flashWriteBytes flash addr bytes) addr bytes.length = bytes ∧
    flash_read_display (flashWriteBytes flash addr bytes) addr bytes.length NRF_SUCCESS =
      "0x" ++ strJoin ((bytes.reverse).map hexByte) :=
  ⟨read_after_write flash addr bytes, display_after_write flash addr bytes h⟩

/-- C1 (witness): the amended round trip evaluated at the example
payload. -/
theorem C1_roundtrip_reversed_hex_witness :
    nrf_fstorage_read (flashWriteBytes (fun _ => 255) 0x3e000 exampleBytes) 0x3e000
        exampleBytes.length = exampleBytes ∧
    flash_read_display (flashWriteBytes (fun _ => 255) 0x3e000 exampleBytes) 0x3e000
        exampleBytes.length NRF_SUCCESS =
      "0x" ++ strJoin ((exampleBytes.reverse).map hexByte) :=
  C1_roundtrip_reversed_hex (fun _ => 255) 0x3e000 exampleBytes (by decide)

/-- C2 (counterexample): flash_erase never invokes the completion
synchronizer: its trace contains no wait step, and running its trace from
an idle backend leaves the busy state true — the function returns while
the erase is still in flight. -/
theorem C2_erase_does_not_wait_counterexample :
    Prim.waitForFlashReady ∉ flash_erase_prims 0x3e000 2 NRF_SUCCESS ∧
    runBusy (flash_erase_prims 0x3e000 2 NRF_SUCCESS) false = true := by
  constructor
  · decide
  · decide

/-- C2 (amended): flash_write blocks until the busy state has been
observed false before returning — its last action is the completion
synchronizer and its trace ends with the busy state false — whereas
flash_erase submits the erase and returns without waiting, its trace
ending with the busy state still true. -/
theorem C2_write_blocks_erase_returns_busy (addr data pages : Nat) (pointee : List Nat)
    (rc : Nat) (h : rc = NRF_SUCCESS) :
    runBusy (flash_write_prims addr data pointee rc) false = false ∧
    (flash_write_prims addr data pointee rc).getLast? = some Prim.waitForFlashReady ∧
    Prim.waitForFlashReady ∉ flash_erase_prims addr pages rc ∧
    runBusy (flash_erase_prims addr pages rc) false = true := by
  subst h
  refine ⟨rfl, rfl, ?_, rfl⟩
  simp [flash_erase_prims]

/-- C2 (witness): the amended statement evaluated at concrete inputs. -/
theorem C2_write_blocks_erase_returns_busy_witness :
    runBusy (flash_write_prims 0x3e000 0x64a65009 [] NRF_SUCCESS) false = false ∧
    (flash_write_prims 0x3e000 0x64a65009 [] NRF_SUCCESS).getLast? =
      some Prim.waitForFlashReady ∧
    Prim.waitForFlashReady ∉ flash_erase_prims 0x3e000 3 NRF_SUCCESS ∧
    runBusy (flash_erase_prims 0x3e000 3 NRF_SUCCESS) false = true :=
  C2_write_blocks_erase_returns_busy 0x3e000 0x64a65009 3 [] NRF_SUCCESS rfl

/-- C3: a flash_read request longer than the 256-byte scratch buffer is
silently clamped to 256 bytes — the backend read is issued with length
256 and the trace never reaches the SDK error handler. -/
theorem C3_read_clamps_oversized (flash : Flash) (addr len rc : Nat)
    (h : len > SCRATCH_SIZE) :
    flash_read_len len = SCRATCH_SIZE ∧
    Prim.fstorageRead addr SCRATCH_SIZE ∈ flash_read_prims flash addr len rc ∧
    divertsToErrorHandler (flash_read_prims flash addr len rc) = false := by
  have hc : flash_read_len len = SCRATCH_SIZE := by
    unfold flash_read_len
    rw [if_pos h]
  refine ⟨hc, ?_, ?_⟩
  · simp [flash_read_prims, hc]
  · by_cases hrc : rc = NRF_SUCCESS
    · subst hrc
      rfl
    · unfold divertsToErrorHandler flash_read_prims
      rw [if_pos hrc]
      rfl

/-- C3 (witness): a 300-byte request is clamped to 256. -/
theorem C3_read_clamps_oversized_witness :
    flash_read_len 300 = SCRATCH_SIZE ∧
    Prim.fstorageRead 0x3e000 SCRATCH_SIZE ∈
      flash_read_prims (fun _ => 0) 0x3e000 300 NRF_SUCCESS ∧
    divertsToErrorHandler (flash_read_prims (fun _ => 0) 0x3e000 300 NRF_SUCCESS) = false :=
  C3_read_clamps_oversized (fun _ => 0) 0x3e000 300 NRF_SUCCESS (by decide)

/-- C4 (counterexample): the configured end address 0x410FD leaves
remainder 253 modulo the 4096-byte erase unit, so it is not a multiple of
the erase unit as the claim requires. -/
theorem C4_region_counterexample :
    fstorage.end_addr % erase_unit = 253 ∧ (253 : Nat) ≠ 0 := by
  constructor
  · decide
  · decide

/-- C4 (amended): the configured region descriptor satisfies
start_addr < end_addr and start_addr is a multiple of the erase unit, but
end_addr is not a multiple of the erase unit; the descriptor is a static
initializer set once and never reassigned. -/
theorem C4_region_descriptor :
    fstorage.start_addr < fstorage.end_addr ∧
    fstorage.start_addr % erase_unit = 0 ∧
    fstorage.end_addr % erase_unit ≠ 0 := by
  refine ⟨?_, ?_, ?_⟩ <;> decide

/-- C5 (counterexample): when the backend submission inside flash_write
returns the non-success code 17, the trace ends in APP_ERROR_CHECK with
that code: control diverts to the SDK error handler, no human-readable
failure is reported by the dispatcher, and execution does not continue. -/
theorem C5_write_error_fatal_counterexample :
    divertsToErrorHandler (flash_write_prims 0x3e000 0x64a65009 [] 17) = true ∧
    (flash_write_prims 0x3e000 0x64a65009 [] 17).getLast? = some (Prim.errorCheck 17) := by
  constructor
  · rfl
  · rfl

/-- C5 (amended): on a non-success submission code, flash_read and
flash_erase print a human-readable failure line and return normally
(their traces never reach the SDK error handler), while flash_write hands
the code to APP_ERROR_CHECK, diverting to the SDK error handler instead
of reporting and continuing. -/
theorem C5_error_reporting (flash : Flash)
    (addr len pages data : Nat) (pointee : List Nat) (rc : Nat)
    (h : rc ≠ NRF_SUCCESS) :
    Prim.printf "unsuccessful" ∈ flash_read_prims flash addr len rc ∧
    divertsToErrorHandler (flash_read_prims flash addr len rc) = false ∧
    Prim.printf ("nrf_fstorage_erase() returned: " ++ nrf_strerror_get rc) ∈
      flash_erase_prims addr pages rc ∧
    divertsToErrorHandler (flash_erase_prims addr pages rc) = false ∧
    divertsToErrorHandler (flash_write_prims addr data pointee rc) = true := by
  refine ⟨?_, ?_, ?_, ?_, ?_⟩
  · unfold flash_read_prims
    rw [if_pos h]
    simp
  · unfold divertsToErrorHandler flash_read_prims
    rw [if_pos h]
    rfl
  · unfold flash_erase_prims
    rw [if_pos h]
    simp
  · unfold divertsToErrorHandler flash_erase_prims
    rw [if_pos h]
    rfl
  · unfold divertsToErrorHandler flash_write_prims
    rw [if_pos h]
    rfl

/-- C5 (witness): the amended statement evaluated at the non-success
code 17. -/
theorem C5_error_reporting_witness :
    Prim.printf "unsuccessful" ∈ flash_read_prims (fun _ => 0) 0x3e000 4 17 ∧
    divertsToErrorHandler (flash_read_prims (fun _ => 0) 0x3e000 4 17) = false ∧
    Prim.printf ("nrf_fstorage_erase() returned: " ++ nrf_strerror_get 17) ∈
      flash_erase_prims 0x3e000 2 17 ∧
    divertsToErrorHandler (flash_erase_prims 0x3e000 2 17) = false ∧
    divertsToErrorHandler (flash_write_prims 0x3e000 0xBADC0FFE [] 17) = true :=
  C5_error_reporting (fun _ => 0) 0x3e000 4 2 0xBADC0FFE [] 17 (by decide)

/-- C6: the hex line printed by flash_read presents the buffer bytes in
reversed order — it equals the 0x prefix followed by the concatenation of
the bytes read, reversed, each rendered by %x — so the byte at index
len-1 is printed first and the byte at index 0 last. -/
theorem C6_display_reverses_bytes (flash : Flash) (addr len : Nat) :
    flash_read_display flash addr len NRF_SUCCESS =
      "0x" ++ strJoin
        (((nrf_fstorage_read flash addr (flash_read_len len)).reverse).map hexByte) := by
  unfold flash_read_display
  rw [hexLoop_eq_join]
  have key : (List.range (flash_read_len len)).map
      (flash_read_buffer flash addr len NRF_SUCCESS) =
      nrf_fstorage_read flash addr (flash_read_len len) := by
    unfold nrf_fstorage_read
    apply List.map_congr_left
    intro i hi
    rw [List.mem_range] at hi
    simp only [flash_read_buffer]
    rw [if_pos ⟨by trivial, hi⟩]
  rw [key]

/-- C7: whenever the wait_for_flash_ready loop exits at check n having
made c power_manage calls, the busy state observed at n is false, the
loop slept exactly once per busy observation (c equals the number of
checks that saw busy), and every earlier check observed busy true. -/
theorem C7_wait_terminates_not_busy (busy : Nat → Bool) (fuel n c k : Nat)
    (h : wait_for_flash_ready busy fuel 0 = some (n, c)) (hk : k < n) :
    busy n = false ∧ c = n ∧ busy k = true := by
  obtain ⟨h1, h2, h3⟩ := wait_spec busy fuel 0 n c h
  exact ⟨h1, by omega, h3 k (Nat.zero_le k) hk⟩

/-- C7 (witness): a backend busy for the first three checks. -/
theorem C7_wait_terminates_not_busy_witness :
    (fun i => decide (i < 3)) 3 = false ∧ 3 = 3 ∧ (fun i => decide (i < 3)) 1 = true :=
  C7_wait_terminates_not_busy (fun i => decide (i < 3)) 10 3 3 1 (by decide) (by decide)

/-- C8: the event handler only logs — every action in its trace is a
console print — and on a non-success result it emits exactly the error
line and returns, performing no flash operation and no wait. -/
theorem C8_handler_logs_only (evt : NrfFstorageEvt) :
    (fstorage_evt_handler evt).all Prim.isPrintf = true ∧
    (evt.result ≠ NRF_SUCCESS →
      fstorage_evt_handler evt =
        [Prim.printf "--> Event received: ERROR while executing an fstorage operation."]) := by
  obtain ⟨res, id, len, addr⟩ := evt
  constructor
  · unfold fstorage_evt_handler
    dsimp only
    by_cases h : res ≠ NRF_SUCCESS
    · rw [if_pos h]
      rfl
    · rw [if_neg h]
      cases id <;> rfl
  · intro h
    unfold fstorage_evt_handler
    dsimp only at h ⊢
    rw [if_pos h]

/-- C8 (witness): a failed write completion event produces exactly the
error log line. -/
theorem C8_handler_logs_only_witness :
    (fstorage_evt_handler (NrfFstorageEvt.mk 1 EvtId.writeResult 4 0x3e000)).all
      Prim.isPrintf = true ∧
    fstorage_evt_handler (NrfFstorageEvt.mk 1 EvtId.writeResult 4 0x3e000) =
      [Prim.printf "--> Event received: ERROR while executing an fstorage operation."] :=
  ⟨(C8_handler_logs_only (NrfFstorageEvt.mk 1 EvtId.writeResult 4 0x3e000)).1,
   (C8_handler_logs_only (NrfFstorageEvt.mk 1 EvtId.writeResult 4 0x3e000)).2 (by decide)⟩

/-- C9: flash_write submits exactly one write, whose buffer is the
4-byte little-endian image of the pointer value itself and whose length
is sizeof of the pointer (4 bytes); the submission is identical for any
size or contents of the object the caller's pointer refers to. -/
theorem C9_write_submits_pointer_value (addr data rc : Nat) (pointee pointee' : List Nat) :
    submittedWrites (flash_write_prims addr data pointee rc) =
      [(addr, leBytes PTR_SIZE data)] ∧
    (leBytes PTR_SIZE data).length = PTR_SIZE ∧
    flash_write_prims addr data pointee rc = flash_write_prims addr data pointee' rc := by
  refine ⟨?_, rfl, rfl⟩
  unfold submittedWrites flash_write_prims
  by_cases h : rc ≠ NRF_SUCCESS
  · rw [if_pos h]
    rfl
  · rw [if_neg h]
    rfl

/-- C10: printf %x renders every byte below 0x10 as a single hex digit,
and consequently the hex text printed for a len-byte buffer has length
2 * len only when every printed byte is at least 0x10. -/
theorem C10_unpadded_hex_digits (b : Nat) (data : Nat → Nat) (len k : Nat)
    (hb : b < 16) (hlen : (hexLoop data len).length = 2 * len) (hk : k < len) :
    (hexByte b).length = 1 ∧ 16 ≤ data k := by
  constructor
  · rw [hexByte_length, if_pos hb]
  · exact (hexLoop_two_mul_iff data len).mp hlen k hk

/-- C10 (witness): byte 0x09 prints as one digit, and a two-byte buffer
of 0x4a bytes prints four digits, so each of its bytes is at least
0x10. -/
theorem C10_unpadded_hex_digits_witness :
    (hexByte 9).length = 1 ∧ 16 ≤ (fun _ : Nat => 0x4a) 0 :=
  C10_unpadded_hex_digits 9 (fun _ : Nat => 0x4a) 2 0 (by decide) (by decide) (by decide)

end Fstorage
